import Mathlib

/-!
Shallow embedding of the session/profile store of this repository
(`lib/auth-context.tsx`, backed by the client created in `lib/supabase.ts`):
the operations `login`, `completeEmployeeProfile`, `refreshUser`, `logout`,
the `initializeAuth` bootstrap and the `onAuthStateChange` subscription
handler, run against a model of the hosted backend (auth accounts, current
session, `employees` and `departments` tables).
-/

/-- A backend credential bundle (the `Session` of the backend SDK):
access token, refresh token and the associated remote user id. -/
structure AuthSession where
  userId : String
  accessToken : String
  refreshToken : String
deriving DecidableEq

/-- A row of the `employees` table, as read into the `UserProfile`
interface of `lib/auth-context.tsx`. -/
structure UserProfile where
  id : String
  full_name : String
  employee_number : String
  position : String
  department_id : Option String
  department_name : Option String
  is_active : Bool
  created_at : Option String
  user_id : String
  phone_number : Option String
  company_name : Option String
  email : Option String
deriving DecidableEq

/-- A row of the `departments` reference table. -/
structure Department where
  id : String
  name : String
deriving DecidableEq

/-- An account of the hosted auth provider, checked by
`signInWithPassword`. -/
structure AuthUser where
  email : String
  password : String
  userId : String
deriving DecidableEq

/-- The remote backend: auth accounts, the current persisted session, and
the `employees` and `departments` tables. -/
structure Backend where
  authUsers : List AuthUser
  session : Option AuthSession
  employees : List UserProfile
  departments : List Department
deriving DecidableEq

/-- Local state of the Session/Profile store (`AuthProvider`): the `user`,
`session`, `departments` and `isLoading` React states. -/
structure AuthState where
  user : Option UserProfile
  session : Option AuthSession
  departments : List Department
  isLoading : Bool
deriving DecidableEq

/-- The store state at provider mount: everything empty, loading. -/
def initialState : AuthState :=
  { user := none, session := none, departments := [], isLoading := true }

/-- Error of a `.single()` query; `noRows` is PostgREST code PGRST116. -/
inductive DbError where
  | noRows
  | multipleRows
deriving DecidableEq

/-- A `.single()` query: exactly one row, otherwise an error. -/
def dbSingle {α : Type} : List α → Except DbError α
  | [a] => .ok a
  | [] => .error .noRows
  | _ :: _ :: _ => .error .multipleRows

/-- JS `String.prototype.toLowerCase`, over the character list. -/
def jsToLowerCase (s : String) : String :=
  ⟨s.data.map Char.toLower⟩

/-- JS `String.prototype.trim`: strip leading and trailing whitespace. -/
def jsTrim (s : String) : String :=
  ⟨((s.data.dropWhile Char.isWhitespace).reverse.dropWhile Char.isWhitespace).reverse⟩

/-- The auth-account lookup behind `supabase.auth.signInWithPassword`. -/
def findAuthUser (b : Backend) (email password : String) : Option AuthUser :=
  b.authUsers.find? (fun u => u.email == email && u.password == password)

/-- The session the backend mints for an account on successful sign-in. -/
def mintSession (u : AuthUser) : AuthSession :=
  { userId := u.userId
    accessToken := u.userId ++ "-access"
    refreshToken := u.userId ++ "-refresh" }

/-- Backend `signInWithPassword`: on matching credentials mints a session,
stores it as the current backend session and returns it; otherwise an
error (`none`). -/
def signInWithPassword (b : Backend) (email password : String) :
    Backend × Option AuthSession :=
  match findAuthUser b email password with
  | some u => ({ b with session := some (mintSession u) }, some (mintSession u))
  | none => (b, none)

/-- Backend `auth.signOut()`: invalidates the current backend session. -/
def signOut (b : Backend) : Backend :=
  { b with session := none }

/-- The rows selected by `.from('employees').select('*').eq('user_id', userId)`. -/
def employeeRows (b : Backend) (userId : String) : List UserProfile :=
  b.employees.filter (fun e => e.user_id == userId)

/-- The rows selected by `.eq('user_id', userId).eq('is_active', true)`. -/
def activeEmployeeRows (b : Backend) (userId : String) : List UserProfile :=
  (employeeRows b userId).filter (fun e => e.is_active)

/-- `fetchUserProfile`: `.single()` over the active rows for the user;
every error — PGRST116 "no rows" included — is logged and collapsed to
`null` (`none`). -/
def fetchUserProfile (b : Backend) (userId : String) : Option UserProfile :=
  match dbSingle (activeEmployeeRows b userId) with
  | .ok p => some p
  | .error _ => none

/-- `login`: normalizes the email (lowercase, trim), exchanges credentials,
then loads the profile. Absent profile: store only the session, succeed.
Deactivated profile: sign out, fail with the "Account Disabled" alert.
Active profile: store session and profile, succeed. Returns the updated
backend, the updated store state and the boolean result. -/
def login (b : Backend) (st : AuthState) (email password : String) :
    Backend × AuthState × Bool :=
  match signInWithPassword b (jsTrim (jsToLowerCase email)) password with
  | (b1, none) => (b1, st, false)
  | (b1, some s) =>
      match fetchUserProfile b1 s.userId with
      | none => (b1, { st with session := some s }, true)
      | some p =>
          if !p.is_active then
            (signOut b1, st, false)
          else
            (b1, { st with session := some s, user := some p }, true)

/-- `refreshUser`: re-reads the current backend session. With a session,
`.single()` over the rows for the user — without the activation filter —
throwing on any error (the second component, local state untouched).
With no session, clears local user and session. -/
def refreshUser (b : Backend) (st : AuthState) : AuthState × Option DbError :=
  match b.session with
  | some s =>
      match dbSingle (employeeRows b s.userId) with
      | .error e => (st, some e)
      | .ok emp => ({ st with user := some emp, session := some s }, none)
  | none => ({ st with user := none, session := none }, none)

/-- `logout`: backend sign-out, then clear local session and user. -/
def logout (b : Backend) (st : AuthState) : Backend × AuthState :=
  (signOut b, { st with session := none, user := none })

/-- The server-generated id of a new `employees` row. -/
def nextEmployeeId (b : Backend) : String :=
  "emp-" ++ toString b.employees.length

/-- The `employees` row built by the insert in `completeEmployeeProfile`:
department id and name, optional contact fields defaulting to `null`,
position defaulting to "Employee", `is_active` true. -/
def mkEmployeeRow (b : Backend) (userId fullName employeeNumber : String)
    (departmentId departmentName : String)
    (phoneNumber companyName pos email : Option String) : UserProfile :=
  { id := nextEmployeeId b
    full_name := fullName
    employee_number := employeeNumber
    position := pos.getD "Employee"
    department_id := some departmentId
    department_name := some departmentName
    is_active := true
    created_at := none
    user_id := userId
    phone_number := phoneNumber
    company_name := companyName
    email := email }

/-- Backend insert into `employees`. The backend's uniqueness policy —
at most one active profile per remote user id, enforced by the backend
and not by this subsystem — rejects a second active row for a user. -/
def insertEmployee (b : Backend) (row : UserProfile) : Backend × Bool :=
  if row.is_active && b.employees.any (fun e => e.user_id == row.user_id && e.is_active) then
    (b, false)
  else
    ({ b with employees := b.employees ++ [row] }, true)

/-- `completeEmployeeProfile`: resolves the department name with
`.single()` (failure before any insert when there is no match), inserts
the employee row, then reloads the profile through `fetchUserProfile` and
stores it when found. -/
def completeEmployeeProfile (b : Backend) (st : AuthState)
    (userId fullName employeeNumber departmentName : String)
    (phoneNumber companyName pos email : Option String) :
    Backend × AuthState × Bool :=
  match dbSingle (b.departments.filter (fun d => d.name == departmentName)) with
  | .error _ => (b, st, false)
  | .ok dept =>
      let row := mkEmployeeRow b userId fullName employeeNumber dept.id
        departmentName phoneNumber companyName pos email
      match insertEmployee b row with
      | (b1, false) => (b1, st, false)
      | (b1, true) =>
          match fetchUserProfile b1 userId with
          | some p => (b1, { st with user := some p }, true)
          | none => (b1, st, true)

/-- `loadDepartments`: the `departments` table, ordered by name. -/
def loadDepartments (b : Backend) : List Department :=
  b.departments.mergeSort (fun d e => decide (d.name ≤ e.name))

/-- `initializeAuth`: load departments, read the persisted backend
session, and when one exists load the profile, tolerating its absence
(session stored, user explicitly `none`); finally the loading flag goes
false. -/
def initializeAuth (b : Backend) (st : AuthState) : AuthState :=
  let st1 := { st with departments := loadDepartments b }
  let st2 :=
    match b.session with
    | some s =>
        match fetchUserProfile b s.userId with
        | some p => { st1 with session := some s, user := some p }
        | none => { st1 with session := some s, user := none }
    | none => st1
  { st2 with isLoading := false }

/-- The events of the backend session-change subscription. -/
inductive AuthEvent where
  | signedIn
  | signedOut
  | tokenRefreshed
deriving DecidableEq

/-- The `onAuthStateChange` subscription handler: signed-in reloads the
profile (absence tolerated), signed-out clears session and user,
token-refreshed updates only the stored session. -/
def onAuthStateChange (b : Backend) (st : AuthState)
    (event : AuthEvent) (newSession : Option AuthSession) : AuthState :=
  match event, newSession with
  | .signedIn, some s =>
      match fetchUserProfile b s.userId with
      | some p => { st with session := some s, user := some p }
      | none => { st with session := some s, user := none }
  | .signedIn, none => st
  | .signedOut, _ => { st with session := none, user := none }
  | .tokenRefreshed, some s => { st with session := some s }
  | .tokenRefreshed, none => st

/-- The stored profile, when present, is active. Operations other than
`refreshUser` only ever store a profile obtained from `fetchUserProfile`,
whose query filters on the activation flag, so they preserve this. -/
def storedActive (st : AuthState) : Bool :=
  st.user.all (fun p => p.is_active)

section ConcreteInstances

/-- A deactivated `employees` row for remote user "u1". -/
def inactiveProfile : UserProfile :=
  { id := "e1", full_name := "Dana", employee_number := "100"
    position := "Employee", department_id := none, department_name := none
    is_active := false, created_at := none, user_id := "u1"
    phone_number := none, company_name := none, email := none }

/-- The auth account of remote user "u1". -/
def authU1 : AuthUser :=
  { email := "user@example.com", password := "pw", userId := "u1" }

/-- A live backend session for "u1". -/
def sessionU1 : AuthSession :=
  { userId := "u1", accessToken := "a1", refreshToken := "r1" }

/-- Backend where "u1" has valid credentials but a deactivated profile,
and no session yet. -/
def backendDeactivated : Backend :=
  { authUsers := [authU1], session := none
    employees := [inactiveProfile], departments := [] }

/-- Backend with a live session for "u1" and a deactivated profile row. -/
def backendDeactivatedLive : Backend :=
  { authUsers := [authU1], session := some sessionU1
    employees := [inactiveProfile], departments := [] }

/-- Backend with a live session for "u1" and no profile row yet
(authenticated but not onboarded). -/
def backendOnboarding : Backend :=
  { authUsers := [authU1], session := some sessionU1
    employees := [], departments := [] }

/-- Backend with no session and no rows at all. -/
def backendEmpty : Backend :=
  { authUsers := [], session := none, employees := [], departments := [] }

/-- Backend with valid credentials for "u1", no session and no profile
row (right after sign-up). -/
def backendFreshSignup : Backend :=
  { authUsers := [authU1], session := none
    employees := [], departments := [] }

/-- Backend with one department and no employees. -/
def backendOneDept : Backend :=
  { authUsers := [authU1], session := none
    employees := [], departments := [{ id := "d1", name := "Safety" }] }

end ConcreteInstances

/-- A `.single()` result row belongs to the queried row list. -/
theorem dbSingle_ok_mem {α : Type} {l : List α} {a : α}
    (h : dbSingle l = .ok a) : a ∈ l := by
  match l with
  | [b] =>
      simp only [dbSingle, Except.ok.injEq] at h
      simp [h]
  | [] => simp [dbSingle] at h
  | _ :: _ :: _ => simp [dbSingle] at h

/-- Any profile returned by `fetchUserProfile` is active, because its
query filters on the activation flag. -/
theorem fetchUserProfile_active {b : Backend} {userId : String} {p : UserProfile}
    (h : fetchUserProfile b userId = some p) : p.is_active = true := by
  unfold fetchUserProfile at h
  cases hd : dbSingle (activeEmployeeRows b userId) with
  | error e => rw [hd] at h; simp at h
  | ok q =>
      rw [hd] at h
      simp only [Option.some.injEq] at h
      subst h
      have hm := dbSingle_ok_mem hd
      unfold activeEmployeeRows at hm
      exact (List.mem_filter.mp hm).2

/-- Changing only the backend session leaves every table query alone. -/
theorem activeEmployeeRows_session_irrel (b : Backend) (x : Option AuthSession)
    (uid : String) :
    activeEmployeeRows { b with session := x } uid = activeEmployeeRows b uid := rfl

/-- `login` can only store a profile delivered by `fetchUserProfile`, so
it preserves the activity of the stored profile. -/
theorem login_preserves_storedActive (b : Backend) (st : AuthState)
    (email password : String) (h : storedActive st = true) :
    storedActive (login b st email password).2.1 = true := by
  unfold login
  rcases hsi : signInWithPassword b (jsTrim (jsToLowerCase email)) password with ⟨b1, os⟩
  cases os with
  | none => simpa using h
  | some s =>
      cases hp : fetchUserProfile b1 s.userId with
      | none => simpa [hp, storedActive] using h
      | some p =>
          have ha := fetchUserProfile_active hp
          simp [hp, ha, storedActive]

/-- `initializeAuth` stores only `fetchUserProfile` results (or nothing),
so it preserves the activity of the stored profile. -/
theorem initializeAuth_preserves_storedActive (b : Backend) (st : AuthState)
    (h : storedActive st = true) :
    storedActive (initializeAuth b st) = true := by
  unfold initializeAuth
  cases hb : b.session with
  | none => simpa [storedActive] using h
  | some s =>
      cases hp : fetchUserProfile b s.userId with
      | none => simp [hp, storedActive]
      | some p => simp [hp, storedActive, fetchUserProfile_active hp]

/-- `completeEmployeeProfile` stores only `fetchUserProfile` results, so
it preserves the activity of the stored profile. -/
theorem completeProfile_preserves_storedActive (b : Backend) (st : AuthState)
    (userId fullName employeeNumber departmentName : String)
    (phoneNumber companyName pos em : Option String)
    (h : storedActive st = true) :
    storedActive (completeEmployeeProfile b st userId fullName employeeNumber
      departmentName phoneNumber companyName pos em).2.1 = true := by
  unfold completeEmployeeProfile
  cases hd : dbSingle (b.departments.filter (fun d => d.name == departmentName)) with
  | error e => simpa using h
  | ok dept =>
      rcases hins : insertEmployee b (mkEmployeeRow b userId fullName employeeNumber
        dept.id departmentName phoneNumber companyName pos em) with ⟨b1, ok⟩
      cases ok with
      | false => simpa [hins] using h
      | true =>
          cases hp : fetchUserProfile b1 userId with
          | none => simpa [hins, hp] using h
          | some p => simp [hins, hp, storedActive, fetchUserProfile_active hp]

/-- The subscription handler stores only `fetchUserProfile` results (or
clears), so it preserves the activity of the stored profile. -/
theorem onAuthStateChange_preserves_storedActive (b : Backend) (st : AuthState)
    (event : AuthEvent) (ns : Option AuthSession) (h : storedActive st = true) :
    storedActive (onAuthStateChange b st event ns) = true := by
  cases event with
  | signedIn =>
      cases ns with
      | none => simpa [onAuthStateChange] using h
      | some s =>
          cases hp : fetchUserProfile b s.userId with
          | none => simp [onAuthStateChange, hp, storedActive]
          | some p =>
              simp [onAuthStateChange, hp, storedActive, fetchUserProfile_active hp]
  | signedOut => simp [onAuthStateChange, storedActive]
  | tokenRefreshed =>
      cases ns with
      | none => simpa [onAuthStateChange] using h
      | some s => simpa [onAuthStateChange, storedActive] using h

/-- C1: with valid credentials for a user whose only profile row is
deactivated, `login` returns success and both the local and the backend
session are retained — the code does not sign out or fail, because
`fetchUserProfile` filters on the activation flag and so never returns
the deactivated profile to `login`'s "Account Disabled" branch. -/
theorem login_deactivated_profile_eval :
    (login backendDeactivated initialState "user@example.com" "pw").2.2 = true
    ∧ (login backendDeactivated initialState "user@example.com" "pw").2.1.session
        = some (mintSession authU1)
    ∧ (login backendDeactivated initialState "user@example.com" "pw").1.session
        = some (mintSession authU1)
    ∧ inactiveProfile.is_active = false := by
  decide

/-- C4: `logout` signs out the backend (invalidating its session) and
clears the local session and user unconditionally, for every prior
backend and store state. -/
theorem logout_clears_unconditionally (b : Backend) (st : AuthState) :
    (logout b st).1 = signOut b
    ∧ (logout b st).1.session = none
    ∧ (logout b st).2.session = none
    ∧ (logout b st).2.user = none := by
  refine ⟨rfl, rfl, rfl, rfl⟩

/-- C8: a token-refreshed event with a new session updates only the
stored session; the stored profile is untouched. -/
theorem tokenRefreshed_updates_session_only (b : Backend) (st : AuthState)
    (s : AuthSession) :
    onAuthStateChange b st AuthEvent.tokenRefreshed (some s)
        = { st with session := some s }
    ∧ (onAuthStateChange b st AuthEvent.tokenRefreshed (some s)).user = st.user
    ∧ (onAuthStateChange b st AuthEvent.tokenRefreshed (some s)).session = some s := by
  refine ⟨rfl, rfl, rfl⟩

/-- C9: against an unchanged backend, running `initializeAuth` twice
yields exactly the terminal store state of running it once. -/
theorem initializeAuth_idempotent (b : Backend) (st : AuthState) :
    initializeAuth b (initializeAuth b st) = initializeAuth b st := by
  cases hb : b.session with
  | none => simp [initializeAuth, hb]
  | some s => cases hp : fetchUserProfile b s.userId <;> simp [initializeAuth, hb, hp]

/-- C2 counterexample: `refreshUser` is an operation of the store that
does leave it holding a session together with a stored deactivated
profile, because its profile query has no activation filter: against a
backend with a live session and a deactivated row it terminates without
error in exactly that state. -/
theorem refreshUser_stores_deactivated_profile :
    (refreshUser backendDeactivatedLive initialState).1.session = some sessionU1
    ∧ (refreshUser backendDeactivatedLive initialState).1.user = some inactiveProfile
    ∧ inactiveProfile.is_active = false
    ∧ (refreshUser backendDeactivatedLive initialState).2 = none := by
  decide

/-- C2 (amended): every operation of the store except `refreshUser` —
`login`, `initializeAuth`, `completeEmployeeProfile` and the
session-change subscription handler — preserves "the stored profile, if
any, is active", so none of them can leave the store holding a session
together with a deactivated stored profile. -/
theorem non_refresh_ops_preserve_storedActive (b : Backend) (st : AuthState)
    (email password userId fullName employeeNumber departmentName : String)
    (phoneNumber companyName pos em : Option String)
    (event : AuthEvent) (ns : Option AuthSession)
    (h : storedActive st = true) :
    storedActive (login b st email password).2.1 = true
    ∧ storedActive (initializeAuth b st) = true
    ∧ storedActive (completeEmployeeProfile b st userId fullName employeeNumber
        departmentName phoneNumber companyName pos em).2.1 = true
    ∧ storedActive (onAuthStateChange b st event ns) = true :=
  ⟨login_preserves_storedActive b st email password h,
   initializeAuth_preserves_storedActive b st h,
   completeProfile_preserves_storedActive b st userId fullName employeeNumber
     departmentName phoneNumber companyName pos em h,
   onAuthStateChange_preserves_storedActive b st event ns h⟩

/-- C2 witness: the amended preservation applied to the fresh store
state against the deactivated-profile backend. -/
theorem non_refresh_ops_preserve_storedActive_witness :
    storedActive (login backendDeactivated initialState "user@example.com" "pw").2.1 = true
    ∧ storedActive (initializeAuth backendDeactivated initialState) = true
    ∧ storedActive (completeEmployeeProfile backendDeactivated initialState "u1" "Dana"
        "100" "Safety" none none none none).2.1 = true
    ∧ storedActive (onAuthStateChange backendDeactivated initialState
        AuthEvent.signedIn (some sessionU1)) = true :=
  non_refresh_ops_preserve_storedActive backendDeactivated initialState
    "user@example.com" "pw" "u1" "Dana" "100" "Safety" none none none none
    AuthEvent.signedIn (some sessionU1) (by decide)

/-- C3: `refreshUser` re-reads the backend session; with no backend
session it clears both the local user and the local session whatever
they were, and any error of its profile query is handed back to the
caller rather than swallowed. -/
theorem refreshUser_clears_and_propagates (b : Backend) (st : AuthState) :
    (b.session = none →
      refreshUser b st = ({ st with user := none, session := none }, none))
    ∧ (∀ s e, b.session = some s →
        dbSingle (employeeRows b s.userId) = Except.error e →
        refreshUser b st = (st, some e)) := by
  constructor
  · intro h
    simp [refreshUser, h]
  · intro s e hs he
    simp [refreshUser, hs, he]

/-- C3 witness: with no backend session a previously set profile is
cleared; with a session whose user has no row, the query error surfaces. -/
theorem refreshUser_clears_and_propagates_witness :
    refreshUser backendEmpty
        { initialState with user := some inactiveProfile, session := some sessionU1 }
      = ({ initialState with user := none, session := none }, none)
    ∧ refreshUser backendOnboarding initialState = (initialState, some DbError.noRows) :=
  ⟨(refreshUser_clears_and_propagates backendEmpty
      { initialState with user := some inactiveProfile, session := some sessionU1 }).1 rfl,
   (refreshUser_clears_and_propagates backendOnboarding initialState).2
     sessionU1 DbError.noRows rfl rfl⟩

/-- When the credentials match an account with no active profile row,
`login` takes the absent-profile branch: success, session minted and
stored, stored profile untouched. -/
theorem login_absent_profile_aux (b : Backend) (st : AuthState)
    (email password : String) (u : AuthUser)
    (hu : findAuthUser b (jsTrim (jsToLowerCase email)) password = some u)
    (hp : activeEmployeeRows b u.userId = []) :
    (login b st email password).2.2 = true
    ∧ (login b st email password).2.1.session = some (mintSession u)
    ∧ (login b st email password).2.1.user = st.user := by
  unfold login signInWithPassword
  rw [hu]
  simp [fetchUserProfile, activeEmployeeRows_session_irrel, mintSession, hp, dbSingle]

/-- C5: with valid credentials and no active profile row for the user,
`login` succeeds, stores the freshly minted session and leaves the
stored profile exactly as it was — in particular empty when it was
empty; profile absence is not an error. -/
theorem login_no_profile_succeeds (b : Backend) (st : AuthState)
    (email password : String) (u : AuthUser)
    (hu : findAuthUser b (jsTrim (jsToLowerCase email)) password = some u)
    (hp : activeEmployeeRows b u.userId = []) :
    (login b st email password).2.2 = true
    ∧ (login b st email password).2.1.session = some (mintSession u)
    ∧ (login b st email password).2.1.user = st.user :=
  login_absent_profile_aux b st email password u hu hp

/-- C5 witness: right after sign-up — valid credentials, no profile row —
`login` from the fresh store state returns success with the session set
and the profile still empty. -/
theorem login_no_profile_succeeds_witness :
    (login backendFreshSignup initialState "user@example.com" "pw").2.2 = true
    ∧ (login backendFreshSignup initialState "user@example.com" "pw").2.1.session
        = some (mintSession authU1)
    ∧ (login backendFreshSignup initialState "user@example.com" "pw").2.1.user
        = initialState.user :=
  login_no_profile_succeeds backendFreshSignup initialState "user@example.com" "pw"
    authU1 (by decide) (by decide)

/-- C6: `completeEmployeeProfile` with a department name matching no row
of the reference table fails before any insert: it returns failure with
the backend — in particular the `employees` table — and the store state
untouched. -/
theorem completeProfile_unknown_department_fails (b : Backend) (st : AuthState)
    (userId fullName employeeNumber departmentName : String)
    (phoneNumber companyName pos em : Option String)
    (hd : b.departments.filter (fun d => d.name == departmentName) = []) :
    (completeEmployeeProfile b st userId fullName employeeNumber departmentName
        phoneNumber companyName pos em).2.2 = false
    ∧ (completeEmployeeProfile b st userId fullName employeeNumber departmentName
        phoneNumber companyName pos em).1 = b
    ∧ (completeEmployeeProfile b st userId fullName employeeNumber departmentName
        phoneNumber companyName pos em).2.1 = st := by
  unfold completeEmployeeProfile
  rw [hd]
  exact ⟨rfl, rfl, rfl⟩

/-- C6 witness: a backend whose department table lacks "Ghost". -/
theorem completeProfile_unknown_department_fails_witness :
    (completeEmployeeProfile backendOneDept initialState "u1" "Dana" "100" "Ghost"
        none none none none).2.2 = false
    ∧ (completeEmployeeProfile backendOneDept initialState "u1" "Dana" "100" "Ghost"
        none none none none).1 = backendOneDept
    ∧ (completeEmployeeProfile backendOneDept initialState "u1" "Dana" "100" "Ghost"
        none none none none).2.1 = initialState :=
  completeProfile_unknown_department_fails backendOneDept initialState "u1" "Dana"
    "100" "Ghost" none none none none (by decide)

/-- Appending a fresh active row for a user to a table holding no active
row for that user makes the activity-filtered user query return exactly
the fresh row. -/
theorem activeEmployeeRows_append_fresh (l : List UserProfile) (row : UserProfile)
    (uid : String) (hu : row.user_id = uid) (ha : row.is_active = true)
    (hq : l.any (fun e => e.user_id == row.user_id && e.is_active) = false) :
    ((l ++ [row]).filter (fun e => e.user_id == uid)).filter (fun e => e.is_active)
      = [row] := by
  rw [List.any_eq_false] at hq
  rw [List.filter_append, List.filter_append]
  have h1 : List.filter (fun e => e.user_id == uid) [row] = [row] := by
    simp [hu]
  have h3 : List.filter (fun e => e.is_active)
      (List.filter (fun e => e.user_id == uid) l) = [] := by
    rw [List.filter_eq_nil_iff]
    intro e he
    have hel := List.mem_filter.mp he
    have hne := hq e hel.1
    simp only [hu, Bool.and_eq_true, not_and] at hne
    simp [hne hel.2]
  rw [h1, h3]
  simp [ha]

/-- After a successful insert of a fresh active row, `fetchUserProfile`
returns exactly that row. -/
theorem fetchUserProfile_after_insert (b : Backend) (row : UserProfile)
    (uid : String) (hu : row.user_id = uid) (ha : row.is_active = true)
    (hq : b.employees.any (fun e => e.user_id == row.user_id && e.is_active) = false) :
    fetchUserProfile { b with employees := b.employees ++ [row] } uid = some row := by
  have hrows : activeEmployeeRows { b with employees := b.employees ++ [row] } uid
      = [row] :=
    activeEmployeeRows_append_fresh b.employees row uid hu ha hq
  unfold fetchUserProfile
  rw [hrows]
  rfl

/-- C7: whenever `completeEmployeeProfile` returns success (the
department resolved and the backend accepted the insert), the store's
profile state holds exactly the freshly inserted row, reloaded through
`fetchUserProfile`. -/
theorem completeProfile_success_stores_new_row (b : Backend) (st : AuthState)
    (userId fullName employeeNumber departmentName : String)
    (phoneNumber companyName pos em : Option String) (dept : Department)
    (hd : dbSingle (b.departments.filter (fun d => d.name == departmentName))
      = Except.ok dept)
    (hs : (completeEmployeeProfile b st userId fullName employeeNumber departmentName
        phoneNumber companyName pos em).2.2 = true) :
    (completeEmployeeProfile b st userId fullName employeeNumber departmentName
        phoneNumber companyName pos em).2.1.user
      = some (mkEmployeeRow b userId fullName employeeNumber dept.id departmentName
          phoneNumber companyName pos em) := by
  have hact : (mkEmployeeRow b userId fullName employeeNumber dept.id departmentName
      phoneNumber companyName pos em).is_active = true := rfl
  have huid : (mkEmployeeRow b userId fullName employeeNumber dept.id departmentName
      phoneNumber companyName pos em).user_id = userId := rfl
  unfold completeEmployeeProfile at hs ⊢
  rw [hd] at hs ⊢
  cases hq : b.employees.any (fun e =>
      e.user_id == (mkEmployeeRow b userId fullName employeeNumber dept.id
        departmentName phoneNumber companyName pos em).user_id && e.is_active) with
  | true => simp [insertEmployee, hact, hq] at hs
  | false =>
      have hfetch := fetchUserProfile_after_insert b
        (mkEmployeeRow b userId fullName employeeNumber dept.id departmentName
          phoneNumber companyName pos em) userId huid hact hq
      simp [insertEmployee, hact, hq, hfetch]

/-- C7 witness: against a backend with the department and no employees,
the operation succeeds and stores exactly the inserted row. -/
theorem completeProfile_success_stores_new_row_witness :
    (completeEmployeeProfile backendOneDept initialState "u1" "Dana" "100" "Safety"
        none none none none).2.1.user
      = some (mkEmployeeRow backendOneDept "u1" "Dana" "100" "d1" "Safety"
          none none none none) :=
  completeProfile_success_stores_new_row backendOneDept initialState "u1" "Dana"
    "100" "Safety" none none none none { id := "d1", name := "Safety" }
    rfl (by decide)

/-- C10: with a backend session whose user has no `employees` row,
`refreshUser` throws the query error with the store untouched, while
`initializeAuth` stores the session with an explicitly empty profile and
`login` (valid credentials, same user) succeeds leaving the profile
untouched; moreover, against a lone deactivated row, `refreshUser` —
whose query has no activation filter — stores that row, while
`fetchUserProfile`, the fetch used by `login` and `initializeAuth`,
returns none for the same user. -/
theorem refreshUser_vs_bootstrap
    (b : Backend) (st : AuthState) (s : AuthSession)
    (email password : String) (u : AuthUser)
    (b2 : Backend) (st2 : AuthState) (s2 : AuthSession) (p : UserProfile)
    (h1 : b.session = some s) (h2 : employeeRows b s.userId = [])
    (hu : findAuthUser b (jsTrim (jsToLowerCase email)) password = some u)
    (hid : u.userId = s.userId)
    (h3 : b2.session = some s2) (h4 : employeeRows b2 s2.userId = [p])
    (h5 : p.is_active = false) :
    refreshUser b st = (st, some DbError.noRows)
    ∧ initializeAuth b st
        = { st with
            departments := loadDepartments b
            session := some s
            user := none
            isLoading := false }
    ∧ (login b st email password).2.2 = true
    ∧ (login b st email password).2.1.user = st.user
    ∧ refreshUser b2 st2 = ({ st2 with user := some p, session := some s2 }, none)
    ∧ fetchUserProfile b2 s2.userId = none := by
  have hp : activeEmployeeRows b u.userId = [] := by
    unfold activeEmployeeRows
    rw [hid, h2]
    rfl
  have hl := login_absent_profile_aux b st email password u hu hp
  refine ⟨?_, ?_, hl.1, hl.2.2, ?_, ?_⟩
  · simp [refreshUser, h1, h2, dbSingle]
  · simp [initializeAuth, h1, fetchUserProfile, activeEmployeeRows, h2, dbSingle]
  · simp [refreshUser, h3, h4, dbSingle]
  · simp [fetchUserProfile, activeEmployeeRows, h4, h5, dbSingle]

/-- C10 witness: the onboarding backend (session, no row) for the first
half; the deactivated-row backend for the second half. -/
theorem refreshUser_vs_bootstrap_witness :
    refreshUser backendOnboarding initialState = (initialState, some DbError.noRows)
    ∧ initializeAuth backendOnboarding initialState
        = { initialState with
            departments := loadDepartments backendOnboarding
            session := some sessionU1
            user := none
            isLoading := false }
    ∧ (login backendOnboarding initialState "user@example.com" "pw").2.2 = true
    ∧ (login backendOnboarding initialState "user@example.com" "pw").2.1.user
        = initialState.user
    ∧ refreshUser backendDeactivatedLive initialState
        = ({ initialState with
              user := some inactiveProfile
              session := some sessionU1 }, none)
    ∧ fetchUserProfile backendDeactivatedLive sessionU1.userId = none :=
  refreshUser_vs_bootstrap backendOnboarding initialState sessionU1
    "user@example.com" "pw" authU1 backendDeactivatedLive initialState sessionU1
    inactiveProfile rfl rfl (by decide) rfl rfl rfl rfl
